import Mathlib

/-!
Verification of the PRU RPMsg transport layer against its specification.

The repository ships the interface header src/include/pru_rpmsg.h: result
codes, size constants, the name-service flag enum, the transport structure
and the declarations (with full parameter types) of pru_rpmsg_receive,
pru_rpmsg_send and pru_rpmsg_channel.  The implementation file is not part
of the snapshot, so the bodies of the three operations are modelled from
the specification (sections 4.1, 4.2, 4.3 and 6), while every type, width
and constant is taken from the header, which is authoritative.

Bytes are modelled as natural numbers (values 0..255 on the wire), machine
integers as naturals reduced modulo 2^w at the points where the C types
force a width.  The ring primitive (an external collaborator per the spec)
is modelled as lists: a slot table, a FIFO of available slot indices and a
FIFO of used (index, total length) pairs.
-/

/-- Return value indicating no kick was sent (pru_rpmsg.h line 32). -/
def PRU_RPMSG_NO_KICK : Int := 1

/-- Return value indicating success (pru_rpmsg.h line 34). -/
def PRU_RPMSG_SUCCESS : Int := 0

/-- Return value indicating there were no available buffers (line 36). -/
def PRU_RPMSG_NO_BUF_AVAILABLE : Int := -1

/-- Return value indicating that the buffer from the virtqueue was too
small (line 38). -/
def PRU_RPMSG_BUF_TOO_SMALL : Int := -2

/-- Return value indicating that an invalid head index was given (line 40). -/
def PRU_RPMSG_INVALID_HEAD : Int := -3

/-- The maximum size of the channel name and description (line 43). -/
def RPMSG_NAME_SIZE : Nat := 32

/-- The maximum size of the buffer, header included (line 45). -/
def RPMSG_BUF_SIZE : Nat := 512

/-- Size in bytes of the message header on the wire:
source:32, destination:32, reserved:32, payload_length:16, flags:16
(spec section 6 wire format). -/
def RPMSG_HDR_SIZE : Nat := 16

/-- Name-service announcement flags (pru_rpmsg.h lines 47-50). -/
inductive pru_rpmsg_ns_flags where
  | RPMSG_NS_CREATE
  | RPMSG_NS_DESTROY
deriving DecidableEq

/-- Numeric value of a name-service flag: create = 0, destroy = 1
(pru_rpmsg.h lines 48-49). -/
def pru_rpmsg_ns_flags.toNat : pru_rpmsg_ns_flags → Nat
  | .RPMSG_NS_CREATE => 0
  | .RPMSG_NS_DESTROY => 1

/-- Little-endian encoding of the low 16 bits of a natural number. -/
def toLE16 (n : Nat) : List Nat :=
  [n % 256, n / 256 % 256]

/-- Little-endian encoding of the low 32 bits of a natural number. -/
def toLE32 (n : Nat) : List Nat :=
  [n % 256, n / 256 % 256, n / 65536 % 256, n / 16777216 % 256]

/-- Read a 16-bit little-endian value from the first two bytes of a list
(missing bytes read as zero). -/
def fromLE16 (l : List Nat) : Nat :=
  l.getD 0 0 + 256 * l.getD 1 0

/-- Read a 32-bit little-endian value from the first four bytes of a list
(missing bytes read as zero). -/
def fromLE32 (l : List Nat) : Nat :=
  l.getD 0 0 + 256 * l.getD 1 0 + 65536 * l.getD 2 0 + 16777216 * l.getD 3 0

/-- The message header prepended to every payload in a ring slot
(spec section 3; wire format of section 6). -/
structure pru_rpmsg_hdr where
  src : Nat
  dst : Nat
  reserved : Nat
  len : Nat
  flags : Nat
deriving DecidableEq

/-- Wire serialization of a message header, 16 bytes little-endian
(spec section 6: source:32, destination:32, reserved:32,
payload_length:16, flags:16). -/
def serializeHdr (h : pru_rpmsg_hdr) : List Nat :=
  toLE32 h.src ++ toLE32 h.dst ++ toLE32 h.reserved ++ toLE16 h.len ++ toLE16 h.flags

/-- One fixed-capacity buffer of a ring, identified by its index
(spec glossary: slot). -/
structure Slot where
  capacity : Nat
  data : List Nat
deriving DecidableEq

/-- Modelled from the spec: the ring primitive (pru_virtqueue, an external
collaborator, spec sections 2 and 6) as seen through the narrow contract
the transport consumes: a slot table, the FIFO of available slot indices
and the FIFO of used (index, total length) pairs. -/
structure pru_virtqueue where
  slots : List Slot
  avail : List Nat
  used : List (Nat × Nat)
deriving DecidableEq

/-- The transport layer: the two virtqueues used for two-way communication
with the ARM (pru_rpmsg.h lines 65-68).  virtqueue0 carries PRU to ARM
traffic, virtqueue1 carries ARM to PRU traffic. -/
structure pru_rpmsg_transport where
  virtqueue0 : pru_virtqueue
  virtqueue1 : pru_virtqueue
deriving DecidableEq

/-- Default slot used by total lookup. -/
def defaultSlot : Slot := ⟨0, []⟩

/-- Slot of a virtqueue at a given index (total lookup). -/
def slotAt (vq : pru_virtqueue) (i : Nat) : Slot :=
  vq.slots.getD i defaultSlot

/-- Modelled from the spec: the body of pru_rpmsg_send is not in the
snapshot; this is spec section 4.2 with the types of the declaration at
pru_rpmsg.h lines 138-144 (src, dst are uint32_t; len is uint16_t).
Acquire the next available buffer (non-blocking); validate the returned
head against the ring bounds before any write; reject with
PRU_RPMSG_BUF_TOO_SMALL when header size plus payload length exceeds the
slot capacity, returning the acquired slot unchanged to the available
pool; otherwise write header then payload, and add the slot to the used
list with total length header size + len. -/
def vring_send (vq : pru_virtqueue) (src dst : Nat) (data : List Nat) :
    Int × pru_virtqueue :=
  match vq.avail with
  | [] => (PRU_RPMSG_NO_BUF_AVAILABLE, vq)
  | head :: rest =>
    if head < vq.slots.length then
      let slot := vq.slots.getD head defaultSlot
      if slot.capacity < RPMSG_HDR_SIZE + data.length then
        (PRU_RPMSG_BUF_TOO_SMALL, vq)
      else
        (PRU_RPMSG_SUCCESS,
          { vq with
              slots := vq.slots.set head
                { slot with data := serializeHdr ⟨src, dst, 0, data.length, 0⟩ ++ data },
              avail := rest,
              used := vq.used ++ [(head, RPMSG_HDR_SIZE + data.length)] })
    else
      (PRU_RPMSG_INVALID_HEAD, vq)

/-- The values pru_rpmsg_receive copies into its out parameters: src and
dst are uint16_t at pru_rpmsg.h lines 102-103, len is uint16_t, data is
the copied payload. -/
structure RecvOut where
  src : Nat
  dst : Nat
  data : List Nat
  len : Nat
deriving DecidableEq

/-- Modelled from the spec: the body of pru_rpmsg_receive is not in the
snapshot; this is spec section 4.1 with the types of the declaration at
pru_rpmsg.h lines 100-106 (the out parameters src and dst are uint16_t,
hence the reduction modulo 2^16; len is uint16_t).  Pull the next
available buffer (non-blocking); validate the head against the ring
bounds, failing fast with PRU_RPMSG_INVALID_HEAD and no mutation;
otherwise parse the leading bytes as a header, copy payload_length bytes
following the header into the caller buffer (the spec states the
transport does not truncate or reject based on caller buffer size), and
return the slot to the used list. -/
def vring_receive (vq : pru_virtqueue) : Int × Option RecvOut × pru_virtqueue :=
  match vq.avail with
  | [] => (PRU_RPMSG_NO_BUF_AVAILABLE, none, vq)
  | head :: rest =>
    if head < vq.slots.length then
      let slot := vq.slots.getD head defaultSlot
      let msrc := fromLE32 slot.data
      let mdst := fromLE32 (slot.data.drop 4)
      let mlen := fromLE16 (slot.data.drop 12)
      (PRU_RPMSG_SUCCESS,
        some ⟨msrc % 65536, mdst % 65536,
          (slot.data.drop RPMSG_HDR_SIZE).take mlen, mlen⟩,
        { vq with
            avail := rest,
            used := vq.used ++ [(head, RPMSG_HDR_SIZE + mlen)] })
    else
      (PRU_RPMSG_INVALID_HEAD, none, vq)

/-- pru_rpmsg_send (declaration pru_rpmsg.h lines 138-144): sends on
virtqueue0, the PRU to ARM direction. -/
def pru_rpmsg_send (t : pru_rpmsg_transport) (src dst : Nat) (data : List Nat) :
    Int × pru_rpmsg_transport :=
  let r := vring_send t.virtqueue0 src dst data
  (r.1, { t with virtqueue0 := r.2 })

/-- pru_rpmsg_receive (declaration pru_rpmsg.h lines 100-106): receives
from virtqueue1, the ARM to PRU direction. -/
def pru_rpmsg_receive (t : pru_rpmsg_transport) :
    Int × Option RecvOut × pru_rpmsg_transport :=
  let r := vring_receive t.virtqueue1
  (r.1, r.2.1, { t with virtqueue1 := r.2.2 })

/-- Modelled from the spec: the reserved name-service endpoint address
(spec section 6 reserves one fixed address but does not give its value;
the reference rpmsg driver uses 53). -/
def RPMSG_NS_ADDR : Nat := 53

/-- NUL-pad a byte list on the right to a fixed width. -/
def padTo (k : Nat) (l : List Nat) : List Nat :=
  l ++ List.replicate (k - l.length) 0

/-- Name-service message payload layout (spec section 6):
name 32 bytes NUL-padded, description 32 bytes NUL-padded, port:32,
flags:32 with create = 0 and destroy = 1. -/
def nsPayload (name desc : List Nat) (port : Nat) (flags : pru_rpmsg_ns_flags) :
    List Nat :=
  padTo RPMSG_NAME_SIZE name ++ padTo RPMSG_NAME_SIZE desc ++
    toLE32 port ++ toLE32 flags.toNat

/-- Modelled from the spec: the body of pru_rpmsg_channel is not in the
snapshot; this is spec section 4.3 with the declaration at pru_rpmsg.h
lines 182-188.  A name or description that does not fit its fixed
32-byte field, terminator included, is rejected before any ring
interaction (spec sections 7 and 8 require rejection before any send
attempt; the only length-flavoured code among the four observable result
codes is PRU_RPMSG_BUF_TOO_SMALL).  Otherwise the name-service payload
is built and sent with src = port and dst = the reserved name-service
address, the result of send propagated verbatim. -/
def pru_rpmsg_channel (flags : pru_rpmsg_ns_flags) (t : pru_rpmsg_transport)
    (name desc : List Nat) (port : Nat) : Int × pru_rpmsg_transport :=
  if name.length < RPMSG_NAME_SIZE ∧ desc.length < RPMSG_NAME_SIZE then
    pru_rpmsg_send t port RPMSG_NS_ADDR (nsPayload name desc port flags)
  else
    (PRU_RPMSG_BUF_TOO_SMALL, t)

/-- Modelled from the spec: section 2 data flow.  Buffers the sender marks
used in shared memory become available, in FIFO order, to the peer's
receive; both sides see the same slot storage. -/
def peerView (vq : pru_virtqueue) : pru_virtqueue :=
  { slots := vq.slots, avail := vq.used.map Prod.fst, used := [] }

/-- Parse the name field of a name-service payload: first 32 bytes up to
the first NUL. -/
def nsParseName (payload : List Nat) : List Nat :=
  (payload.take RPMSG_NAME_SIZE).takeWhile (fun b => b ≠ 0)

/-- Parse the description field of a name-service payload: second 32
bytes up to the first NUL. -/
def nsParseDesc (payload : List Nat) : List Nat :=
  ((payload.drop RPMSG_NAME_SIZE).take RPMSG_NAME_SIZE).takeWhile (fun b => b ≠ 0)

/-- Parse the announced port of a name-service payload: 32-bit
little-endian at offset 64. -/
def nsParsePort (payload : List Nat) : Nat :=
  fromLE32 (payload.drop 64)

/-- Parse the create/destroy flag of a name-service payload: 32-bit
little-endian at offset 68. -/
def nsParseFlags (payload : List Nat) : Nat :=
  fromLE32 (payload.drop 68)

/-- Modelled from the spec: section 2 data flow seen from the host.  The
buffers one side marks used become available, in FIFO order, to the
peer's receive, over the same shared slot storage; the host therefore
receives on the PRU to ARM ring.  peerTransport t is the transport as
the host's receive sees it after the PRU acted on t. -/
def peerTransport (t : pru_rpmsg_transport) : pru_rpmsg_transport :=
  ⟨t.virtqueue1, peerView t.virtqueue0⟩

/-! ### Concrete transports used by witnesses and counterexamples -/

/-- A one-slot ring with a 512-byte slot available at head 0. -/
def exRing : pru_virtqueue := ⟨[⟨512, []⟩], [0], []⟩

/-- A one-slot ring with no available buffer. -/
def exEmptyRing : pru_virtqueue := ⟨[⟨512, []⟩], [], []⟩

/-- A one-slot ring whose primitive hands out the out-of-bounds head 3. -/
def exBadRing : pru_virtqueue := ⟨[⟨512, []⟩], [3], []⟩

/-- A one-slot inbound ring holding a message whose 32-bit header source
is 65536 and whose payload is the single byte 9 (payload_length 1). -/
def exRecvRing : pru_virtqueue :=
  ⟨[⟨512, serializeHdr ⟨65536, 5, 0, 1, 0⟩ ++ [9]⟩], [0], []⟩

/-! ### Case lemmas for the modelled operations -/

theorem vring_send_none (s0 : List Slot) (u0 : List (Nat × Nat)) (src dst : Nat)
    (data : List Nat) :
    vring_send ⟨s0, [], u0⟩ src dst data = (PRU_RPMSG_NO_BUF_AVAILABLE, ⟨s0, [], u0⟩) :=
  rfl

theorem vring_send_invalid (s0 : List Slot) (u0 : List (Nat × Nat)) (head : Nat)
    (rest : List Nat) (src dst : Nat) (data : List Nat)
    (hh : ¬ head < s0.length) :
    vring_send ⟨s0, head :: rest, u0⟩ src dst data =
      (PRU_RPMSG_INVALID_HEAD, ⟨s0, head :: rest, u0⟩) := by
  simp [vring_send, hh]

theorem vring_send_toosmall (s0 : List Slot) (u0 : List (Nat × Nat)) (head : Nat)
    (rest : List Nat) (src dst : Nat) (data : List Nat)
    (hh : head < s0.length)
    (hc : (s0.getD head defaultSlot).capacity < RPMSG_HDR_SIZE + data.length) :
    vring_send ⟨s0, head :: rest, u0⟩ src dst data =
      (PRU_RPMSG_BUF_TOO_SMALL, ⟨s0, head :: rest, u0⟩) := by
  simp [vring_send, hh, hc]
  rwa [List.getD_eq_getElem _ _ hh] at hc

theorem vring_send_ok (s0 : List Slot) (u0 : List (Nat × Nat)) (head : Nat)
    (rest : List Nat) (src dst : Nat) (data : List Nat)
    (hh : head < s0.length)
    (hc : RPMSG_HDR_SIZE + data.length ≤ (s0.getD head defaultSlot).capacity) :
    vring_send ⟨s0, head :: rest, u0⟩ src dst data =
      (PRU_RPMSG_SUCCESS,
        ⟨s0.set head ⟨(s0.getD head defaultSlot).capacity,
            serializeHdr ⟨src, dst, 0, data.length, 0⟩ ++ data⟩,
          rest, u0 ++ [(head, RPMSG_HDR_SIZE + data.length)]⟩) := by
  simp [vring_send, hh, Nat.not_lt.mpr hc]
  rw [List.getD_eq_getElem _ _ hh] at hc
  omega

theorem vring_receive_none (s1 : List Slot) (u1 : List (Nat × Nat)) :
    vring_receive ⟨s1, [], u1⟩ = (PRU_RPMSG_NO_BUF_AVAILABLE, none, ⟨s1, [], u1⟩) :=
  rfl

theorem vring_receive_invalid (s1 : List Slot) (u1 : List (Nat × Nat)) (head : Nat)
    (rest : List Nat) (hh : ¬ head < s1.length) :
    vring_receive ⟨s1, head :: rest, u1⟩ =
      (PRU_RPMSG_INVALID_HEAD, none, ⟨s1, head :: rest, u1⟩) := by
  simp [vring_receive, hh]

theorem vring_receive_ok (s1 : List Slot) (u1 : List (Nat × Nat)) (head : Nat)
    (rest : List Nat) (hh : head < s1.length) :
    vring_receive ⟨s1, head :: rest, u1⟩ =
      (PRU_RPMSG_SUCCESS,
        some ⟨fromLE32 (s1.getD head defaultSlot).data % 65536,
          fromLE32 ((s1.getD head defaultSlot).data.drop 4) % 65536,
          ((s1.getD head defaultSlot).data.drop RPMSG_HDR_SIZE).take
            (fromLE16 ((s1.getD head defaultSlot).data.drop 12)),
          fromLE16 ((s1.getD head defaultSlot).data.drop 12)⟩,
        ⟨s1, rest,
          u1 ++ [(head, RPMSG_HDR_SIZE + fromLE16 ((s1.getD head defaultSlot).data.drop 12))]⟩) := by
  simp [vring_receive, hh]

/-! ### Arithmetic and list lemmas -/

theorem getD_set_self {α : Type} (l : List α) (i : Nat) (a d : α) (h : i < l.length) :
    (l.set i a).getD i d = a := by
  induction l generalizing i with
  | nil => simp at h
  | cons x xs ih =>
    cases i with
    | zero => rfl
    | succ j => simpa using ih j (by simpa using h)

theorem hdr_parse (src dst len0 flags0 : Nat) (data : List Nat) :
    fromLE32 (serializeHdr ⟨src, dst, 0, len0, flags0⟩ ++ data) = src % 4294967296 ∧
    fromLE32 ((serializeHdr ⟨src, dst, 0, len0, flags0⟩ ++ data).drop 4) = dst % 4294967296 ∧
    fromLE16 ((serializeHdr ⟨src, dst, 0, len0, flags0⟩ ++ data).drop 12) = len0 % 65536 ∧
    (serializeHdr ⟨src, dst, 0, len0, flags0⟩ ++ data).drop RPMSG_HDR_SIZE = data := by
  refine ⟨?_, ?_, ?_, ?_⟩ <;>
    simp [serializeHdr, toLE32, toLE16, fromLE32, fromLE16, RPMSG_HDR_SIZE] <;>
    omega

theorem padTo_length (k : Nat) (l : List Nat) (h : l.length ≤ k) :
    (padTo k l).length = k := by
  simp [padTo]; omega

theorem nsPayload_length (name desc : List Nat) (port : Nat)
    (f : pru_rpmsg_ns_flags) (hn : name.length ≤ RPMSG_NAME_SIZE)
    (hd : desc.length ≤ RPMSG_NAME_SIZE) :
    (nsPayload name desc port f).length = 72 := by
  unfold nsPayload
  rw [List.length_append, List.length_append, List.length_append,
    padTo_length _ _ hn, padTo_length _ _ hd]
  simp [toLE32, RPMSG_NAME_SIZE]

theorem takeWhile_append_zero (l tl : List Nat) (hl : ∀ b ∈ l, b ≠ 0) :
    (l ++ 0 :: tl).takeWhile (fun b => b ≠ 0) = l := by
  induction l with
  | nil => simp [List.takeWhile_cons]
  | cons a as ih =>
    have ha : a ≠ 0 := hl a (by simp)
    simp only [List.cons_append, List.takeWhile_cons, decide_eq_true_eq]
    rw [if_pos ha, ih (fun b hb => hl b (by simp [hb]))]

theorem replicate_zero_split (k m : Nat) (h : k = m + 1) :
    List.replicate k (0 : Nat) = 0 :: List.replicate m 0 := by
  subst h; rfl

theorem padTo_split (k : Nat) (l : List Nat) (h : l.length < k) :
    padTo k l = l ++ 0 :: List.replicate (k - l.length - 1) 0 := by
  unfold padTo
  rw [replicate_zero_split (k - l.length) (k - l.length - 1) (by omega)]

theorem takeWhile_padTo (k : Nat) (l : List Nat) (h : l.length < k)
    (hl : ∀ b ∈ l, b ≠ 0) :
    (padTo k l).takeWhile (fun b => b ≠ 0) = l := by
  rw [padTo_split k l h, takeWhile_append_zero l _ hl]

theorem nsParseName_nsPayload (name desc : List Nat) (port : Nat)
    (f : pru_rpmsg_ns_flags) (hn : name.length < RPMSG_NAME_SIZE)
    (hz : ∀ b ∈ name, b ≠ 0) :
    nsParseName (nsPayload name desc port f) = name := by
  unfold nsParseName nsPayload
  rw [List.append_assoc, List.append_assoc,
    List.take_left' (padTo_length _ _ (Nat.le_of_lt hn)),
    takeWhile_padTo _ _ hn hz]

theorem nsParseDesc_nsPayload (name desc : List Nat) (port : Nat)
    (f : pru_rpmsg_ns_flags) (hn : name.length ≤ RPMSG_NAME_SIZE)
    (hd : desc.length < RPMSG_NAME_SIZE) (hz : ∀ b ∈ desc, b ≠ 0) :
    nsParseDesc (nsPayload name desc port f) = desc := by
  unfold nsParseDesc nsPayload
  rw [List.append_assoc, List.append_assoc,
    List.drop_left' (padTo_length _ _ hn),
    List.take_left' (padTo_length _ _ (Nat.le_of_lt hd)),
    takeWhile_padTo _ _ hd hz]

theorem fromLE32_toLE32_append (n : Nat) (l : List Nat) :
    fromLE32 (toLE32 n ++ l) = n % 4294967296 := by
  simp [fromLE32, toLE32]
  omega

theorem nsParsePort_nsPayload (name desc : List Nat) (port : Nat)
    (f : pru_rpmsg_ns_flags) (hn : name.length ≤ RPMSG_NAME_SIZE)
    (hd : desc.length ≤ RPMSG_NAME_SIZE) :
    nsParsePort (nsPayload name desc port f) = port % 4294967296 := by
  unfold nsParsePort nsPayload
  have h64 : (padTo RPMSG_NAME_SIZE name ++ padTo RPMSG_NAME_SIZE desc).length = 64 := by
    rw [List.length_append, padTo_length _ _ hn, padTo_length _ _ hd]; rfl
  rw [List.append_assoc, List.drop_left' h64, fromLE32_toLE32_append]


theorem nsParseFlags_nsPayload (name desc : List Nat) (port : Nat)
    (f : pru_rpmsg_ns_flags) (hn : name.length ≤ RPMSG_NAME_SIZE)
    (hd : desc.length ≤ RPMSG_NAME_SIZE) :
    nsParseFlags (nsPayload name desc port f) = f.toNat := by
  unfold nsParseFlags nsPayload
  have h68 : ((padTo RPMSG_NAME_SIZE name ++ padTo RPMSG_NAME_SIZE desc) ++ toLE32 port).length = 68 := by
    rw [List.length_append, List.length_append, padTo_length _ _ hn, padTo_length _ _ hd]
    simp [toLE32, RPMSG_NAME_SIZE]
  rw [List.drop_left' h68]
  have : fromLE32 (toLE32 f.toNat ++ []) = f.toNat % 4294967296 := fromLE32_toLE32_append _ _
  rw [List.append_nil] at this
  rw [this]
  cases f <;> rfl

/-! ### Result-code case analysis -/

theorem vring_send_result (vq : pru_virtqueue) (src dst : Nat) (data : List Nat) :
    (vring_send vq src dst data).1 = PRU_RPMSG_SUCCESS ∨
    (vring_send vq src dst data).1 = PRU_RPMSG_NO_BUF_AVAILABLE ∨
    (vring_send vq src dst data).1 = PRU_RPMSG_BUF_TOO_SMALL ∨
    (vring_send vq src dst data).1 = PRU_RPMSG_INVALID_HEAD := by
  obtain ⟨s, a, u⟩ := vq
  cases a with
  | nil => right; left; rfl
  | cons head rest =>
    by_cases hh : head < s.length
    · by_cases hc : (s.getD head defaultSlot).capacity < RPMSG_HDR_SIZE + data.length
      · rw [vring_send_toosmall s u head rest src dst data hh hc]
        right; right; left; rfl
      · rw [vring_send_ok s u head rest src dst data hh (Nat.le_of_not_lt hc)]
        left; rfl
    · rw [vring_send_invalid s u head rest src dst data hh]
      right; right; right; rfl

theorem vring_receive_result (vq : pru_virtqueue) :
    (vring_receive vq).1 = PRU_RPMSG_SUCCESS ∨
    (vring_receive vq).1 = PRU_RPMSG_NO_BUF_AVAILABLE ∨
    (vring_receive vq).1 = PRU_RPMSG_INVALID_HEAD := by
  obtain ⟨s, a, u⟩ := vq
  cases a with
  | nil => right; left; rfl
  | cons head rest =>
    by_cases hh : head < s.length
    · rw [vring_receive_ok s u head rest hh]
      left; rfl
    · rw [vring_receive_invalid s u head rest hh]
      right; right; rfl

/-! ### Claim theorems -/

/-- C5: whenever the outbound (PRU to ARM) ring has zero available slots,
pru_rpmsg_send returns PRU_RPMSG_NO_BUF_AVAILABLE immediately and leaves
the whole transport state unchanged. -/
theorem send_exhaustion (t : pru_rpmsg_transport) (src dst : Nat) (data : List Nat)
    (hav : t.virtqueue0.avail = []) :
    pru_rpmsg_send t src dst data = (PRU_RPMSG_NO_BUF_AVAILABLE, t) := by
  obtain ⟨⟨s0, a0, u0⟩, vq1⟩ := t
  dsimp only at hav
  subst hav
  rfl

theorem send_exhaustion_witness :
    pru_rpmsg_send ⟨exEmptyRing, exEmptyRing⟩ 1 2 [3] =
      (PRU_RPMSG_NO_BUF_AVAILABLE, ⟨exEmptyRing, exEmptyRing⟩) :=
  send_exhaustion ⟨exEmptyRing, exEmptyRing⟩ 1 2 [3] rfl

/-- C6: whenever the ring primitive hands back an out-of-bounds slot index,
pru_rpmsg_send and pru_rpmsg_receive both return PRU_RPMSG_INVALID_HEAD,
perform no buffer read or write, leave the out parameters untouched
(receive yields no RecvOut) and release nothing back to the ring: the
transport is returned exactly as it was. -/
theorem invalid_head_isolation (t : pru_rpmsg_transport) (src dst : Nat)
    (data : List Nat) (h0 h1 : Nat) (r0 r1 : List Nat)
    (hav0 : t.virtqueue0.avail = h0 :: r0)
    (hinv0 : ¬ h0 < t.virtqueue0.slots.length)
    (hav1 : t.virtqueue1.avail = h1 :: r1)
    (hinv1 : ¬ h1 < t.virtqueue1.slots.length) :
    pru_rpmsg_send t src dst data = (PRU_RPMSG_INVALID_HEAD, t) ∧
    pru_rpmsg_receive t = (PRU_RPMSG_INVALID_HEAD, none, t) := by
  obtain ⟨⟨s0, a0, u0⟩, ⟨s1, a1, u1⟩⟩ := t
  dsimp only at hav0 hinv0 hav1 hinv1
  subst hav0
  subst hav1
  constructor
  · simp [pru_rpmsg_send, vring_send_invalid s0 u0 h0 r0 src dst data hinv0]
  · simp [pru_rpmsg_receive, vring_receive_invalid s1 u1 h1 r1 hinv1]

theorem invalid_head_isolation_witness :
    pru_rpmsg_send ⟨exBadRing, exBadRing⟩ 1 2 [3] =
      (PRU_RPMSG_INVALID_HEAD, ⟨exBadRing, exBadRing⟩) ∧
    pru_rpmsg_receive ⟨exBadRing, exBadRing⟩ =
      (PRU_RPMSG_INVALID_HEAD, none, ⟨exBadRing, exBadRing⟩) :=
  invalid_head_isolation ⟨exBadRing, exBadRing⟩ 1 2 [3] 3 3 [] [] rfl
    (by decide) rfl (by decide)

/-- C8: a channel name or description that does not fit its fixed 32-byte
field (terminator included) makes pru_rpmsg_channel fail before any ring
interaction: the result is the length error and the transport is returned
exactly as it was, so no buffer is acquired, no byte is written and no
partial send occurs. -/
theorem channel_oversized_name_rejected (t : pru_rpmsg_transport)
    (flags : pru_rpmsg_ns_flags) (name desc : List Nat) (port : Nat)
    (hbad : RPMSG_NAME_SIZE ≤ name.length ∨ RPMSG_NAME_SIZE ≤ desc.length) :
    pru_rpmsg_channel flags t name desc port = (PRU_RPMSG_BUF_TOO_SMALL, t) := by
  unfold pru_rpmsg_channel
  rw [if_neg (by omega)]

theorem channel_oversized_name_rejected_witness :
    pru_rpmsg_channel .RPMSG_NS_CREATE ⟨exRing, exRing⟩ (List.replicate 40 97)
      [100] 42 = (PRU_RPMSG_BUF_TOO_SMALL, ⟨exRing, exRing⟩) :=
  channel_oversized_name_rejected ⟨exRing, exRing⟩ .RPMSG_NS_CREATE
    (List.replicate 40 97) [100] 42 (by decide)

/-- C9: on every input, each of pru_rpmsg_send, pru_rpmsg_receive and
pru_rpmsg_channel returns one of exactly the four observable result codes
PRU_RPMSG_SUCCESS, PRU_RPMSG_NO_BUF_AVAILABLE, PRU_RPMSG_BUF_TOO_SMALL
and PRU_RPMSG_INVALID_HEAD. -/
theorem result_codes_closed (t : pru_rpmsg_transport) (src dst port : Nat)
    (data name desc : List Nat) (flags : pru_rpmsg_ns_flags) :
    ((pru_rpmsg_send t src dst data).1 = PRU_RPMSG_SUCCESS ∨
     (pru_rpmsg_send t src dst data).1 = PRU_RPMSG_NO_BUF_AVAILABLE ∨
     (pru_rpmsg_send t src dst data).1 = PRU_RPMSG_BUF_TOO_SMALL ∨
     (pru_rpmsg_send t src dst data).1 = PRU_RPMSG_INVALID_HEAD) ∧
    ((pru_rpmsg_receive t).1 = PRU_RPMSG_SUCCESS ∨
     (pru_rpmsg_receive t).1 = PRU_RPMSG_NO_BUF_AVAILABLE ∨
     (pru_rpmsg_receive t).1 = PRU_RPMSG_BUF_TOO_SMALL ∨
     (pru_rpmsg_receive t).1 = PRU_RPMSG_INVALID_HEAD) ∧
    ((pru_rpmsg_channel flags t name desc port).1 = PRU_RPMSG_SUCCESS ∨
     (pru_rpmsg_channel flags t name desc port).1 = PRU_RPMSG_NO_BUF_AVAILABLE ∨
     (pru_rpmsg_channel flags t name desc port).1 = PRU_RPMSG_BUF_TOO_SMALL ∨
     (pru_rpmsg_channel flags t name desc port).1 = PRU_RPMSG_INVALID_HEAD) := by
  refine ⟨?_, ?_, ?_⟩
  · simpa [pru_rpmsg_send] using vring_send_result t.virtqueue0 src dst data
  · have h := vring_receive_result t.virtqueue1
    rcases h with h | h | h <;> simp [pru_rpmsg_receive, h]
  · unfold pru_rpmsg_channel
    by_cases hfit : name.length < RPMSG_NAME_SIZE ∧ desc.length < RPMSG_NAME_SIZE
    · rw [if_pos hfit]
      simpa [pru_rpmsg_send] using
        vring_send_result t.virtqueue0 port RPMSG_NS_ADDR (nsPayload name desc port flags)
    · rw [if_neg hfit]
      right; right; left; rfl

/-- Success path of pru_rpmsg_receive, characterized over any transport
whose inbound ring hands out a valid head. -/
theorem pru_rpmsg_receive_ok (t : pru_rpmsg_transport) (head : Nat)
    (rest : List Nat) (hav : t.virtqueue1.avail = head :: rest)
    (hh : head < t.virtqueue1.slots.length) :
    pru_rpmsg_receive t =
      (PRU_RPMSG_SUCCESS,
        some ⟨fromLE32 (slotAt t.virtqueue1 head).data % 65536,
          fromLE32 ((slotAt t.virtqueue1 head).data.drop 4) % 65536,
          ((slotAt t.virtqueue1 head).data.drop RPMSG_HDR_SIZE).take
            (fromLE16 ((slotAt t.virtqueue1 head).data.drop 12)),
          fromLE16 ((slotAt t.virtqueue1 head).data.drop 12)⟩,
        ⟨t.virtqueue0,
          ⟨t.virtqueue1.slots, rest,
            t.virtqueue1.used ++
              [(head, RPMSG_HDR_SIZE + fromLE16 ((slotAt t.virtqueue1 head).data.drop 12))]⟩⟩) := by
  obtain ⟨vq0, ⟨s1, a1, u1⟩⟩ := t
  dsimp only [slotAt] at hav hh ⊢
  subst hav
  simp [pru_rpmsg_receive, vring_receive_ok s1 u1 head rest hh]

/-- C4: a send whose required size (header size plus payload length)
exceeds the acquired slot's capacity returns PRU_RPMSG_BUF_TOO_SMALL and
hands the transport back exactly as it was (the acquired slot is returned
to the available pool unchanged, nothing is leaked), and a subsequent
send of a fitting message on the same transport succeeds. -/
theorem send_oversize_rejected (t : pru_rpmsg_transport) (src dst src2 dst2 : Nat)
    (data data2 : List Nat) (head : Nat) (rest : List Nat)
    (hav : t.virtqueue0.avail = head :: rest)
    (hh : head < t.virtqueue0.slots.length)
    (hbig : (slotAt t.virtqueue0 head).capacity < RPMSG_HDR_SIZE + data.length)
    (hfit : RPMSG_HDR_SIZE + data2.length ≤ (slotAt t.virtqueue0 head).capacity) :
    pru_rpmsg_send t src dst data = (PRU_RPMSG_BUF_TOO_SMALL, t) ∧
    (pru_rpmsg_send (pru_rpmsg_send t src dst data).2 src2 dst2 data2).1 =
      PRU_RPMSG_SUCCESS := by
  obtain ⟨⟨s0, a0, u0⟩, vq1⟩ := t
  dsimp only [slotAt] at hav hh hbig hfit
  subst hav
  have h1 : pru_rpmsg_send ⟨⟨s0, head :: rest, u0⟩, vq1⟩ src dst data =
      (PRU_RPMSG_BUF_TOO_SMALL, ⟨⟨s0, head :: rest, u0⟩, vq1⟩) := by
    simp [pru_rpmsg_send, vring_send_toosmall s0 u0 head rest src dst data hh hbig]
  refine ⟨h1, ?_⟩
  rw [h1]
  simp [pru_rpmsg_send, vring_send_ok s0 u0 head rest src2 dst2 data2 hh hfit]

set_option maxRecDepth 4000 in
theorem send_oversize_rejected_witness :
    pru_rpmsg_send ⟨exRing, exEmptyRing⟩ 1 2 (List.replicate 497 7) =
      (PRU_RPMSG_BUF_TOO_SMALL, ⟨exRing, exEmptyRing⟩) ∧
    (pru_rpmsg_send
      (pru_rpmsg_send ⟨exRing, exEmptyRing⟩ 1 2 (List.replicate 497 7)).2
      3 4 [8, 9]).1 = PRU_RPMSG_SUCCESS :=
  send_oversize_rejected ⟨exRing, exEmptyRing⟩ 1 2 3 4 (List.replicate 497 7)
    [8, 9] 0 [] rfl (by decide) (by decide) (by decide)

/-- C2 counterexample: the claim that pru_rpmsg_receive validates the
peer-supplied payload_length against the caller's destination buffer
capacity before copying is false: the interface carries no capacity at
all, and on a concrete inbound message of payload_length 1 the copy is
performed even though the modelled caller capacity is 0. -/
theorem receive_validates_capacity_counterexample :
    ¬ (∀ (cap : Nat) (t : pru_rpmsg_transport) (o : RecvOut),
        (pru_rpmsg_receive t).2.1 = some o → o.len ≤ cap) := by
  intro hclaim
  have h := hclaim 0 ⟨exEmptyRing, exRecvRing⟩ ⟨0, 5, [9], 1⟩ (by decide)
  exact absurd h (by decide)

/-- C2 (amended): pru_rpmsg_receive performs no validation against any
caller buffer capacity (its interface has no capacity parameter); on
every successfully pulled buffer it unconditionally copies exactly the
peer-supplied payload_length bytes that follow the header, and reports
that length, so the caller must have reserved the maximum slot payload
capacity. -/
theorem receive_copy_driven_by_peer_length (t : pru_rpmsg_transport)
    (head : Nat) (rest : List Nat)
    (hav : t.virtqueue1.avail = head :: rest)
    (hh : head < t.virtqueue1.slots.length) :
    (pru_rpmsg_receive t).1 = PRU_RPMSG_SUCCESS ∧
    ((pru_rpmsg_receive t).2.1.map RecvOut.data) =
      some (((slotAt t.virtqueue1 head).data.drop RPMSG_HDR_SIZE).take
        (fromLE16 ((slotAt t.virtqueue1 head).data.drop 12))) ∧
    ((pru_rpmsg_receive t).2.1.map RecvOut.len) =
      some (fromLE16 ((slotAt t.virtqueue1 head).data.drop 12)) := by
  rw [pru_rpmsg_receive_ok t head rest hav hh]
  exact ⟨rfl, rfl, rfl⟩

theorem receive_copy_driven_by_peer_length_witness :
    (pru_rpmsg_receive ⟨exEmptyRing, exRecvRing⟩).1 = PRU_RPMSG_SUCCESS ∧
    ((pru_rpmsg_receive ⟨exEmptyRing, exRecvRing⟩).2.1.map RecvOut.data) =
      some (((slotAt exRecvRing 0).data.drop RPMSG_HDR_SIZE).take
        (fromLE16 ((slotAt exRecvRing 0).data.drop 12))) ∧
    ((pru_rpmsg_receive ⟨exEmptyRing, exRecvRing⟩).2.1.map RecvOut.len) =
      some (fromLE16 ((slotAt exRecvRing 0).data.drop 12)) :=
  receive_copy_driven_by_peer_length ⟨exEmptyRing, exRecvRing⟩ 0 [] rfl (by decide)

/-- C3 counterexample: the claim that pru_rpmsg_receive populates src with
the full 32-bit header source address is false: on a concrete message
whose 32-bit header source field holds 65536, the populated src is 0
(the out parameters are declared uint16_t at pru_rpmsg.h lines 102-103). -/
theorem receive_full_32bit_addresses_counterexample :
    fromLE32 (slotAt (⟨exEmptyRing, exRecvRing⟩ : pru_rpmsg_transport).virtqueue1 0).data
      = 65536 ∧
    (pru_rpmsg_receive ⟨exEmptyRing, exRecvRing⟩).1 = PRU_RPMSG_SUCCESS ∧
    (pru_rpmsg_receive ⟨exEmptyRing, exRecvRing⟩).2.1 = some ⟨0, 5, [9], 1⟩ ∧
    (0 : Nat) ≠ 65536 := by
  refine ⟨by decide, by decide, by decide, by decide⟩

/-- C3 (amended): the wire header carries 32-bit source and destination
endpoint addresses, but pru_rpmsg_receive populates its uint16_t out
parameters with those header fields reduced modulo 2^16, so an address
is recovered in full exactly when it is below 2^16; larger header
addresses are narrowed. -/
theorem receive_addresses_narrowed_mod_2_16 (t : pru_rpmsg_transport)
    (head : Nat) (rest : List Nat)
    (hav : t.virtqueue1.avail = head :: rest)
    (hh : head < t.virtqueue1.slots.length) :
    ((pru_rpmsg_receive t).2.1.map RecvOut.src) =
      some (fromLE32 (slotAt t.virtqueue1 head).data % 65536) ∧
    ((pru_rpmsg_receive t).2.1.map RecvOut.dst) =
      some (fromLE32 ((slotAt t.virtqueue1 head).data.drop 4) % 65536) := by
  rw [pru_rpmsg_receive_ok t head rest hav hh]
  exact ⟨rfl, rfl⟩

theorem receive_addresses_narrowed_mod_2_16_witness :
    ((pru_rpmsg_receive ⟨exEmptyRing, exRecvRing⟩).2.1.map RecvOut.src) =
      some (fromLE32 (slotAt exRecvRing 0).data % 65536) ∧
    ((pru_rpmsg_receive ⟨exEmptyRing, exRecvRing⟩).2.1.map RecvOut.dst) =
      some (fromLE32 ((slotAt exRecvRing 0).data.drop 4) % 65536) :=
  receive_addresses_narrowed_mod_2_16 ⟨exEmptyRing, exRecvRing⟩ 0 [] rfl (by decide)

/-- C1 counterexample: the round-trip does not preserve every valid
(32-bit) source address: a send with src = 65536 followed by the peer's
receive of that slot yields src = 0, because the receive out parameters
are 16 bits wide. -/
theorem send_receive_roundtrip_counterexample :
    (pru_rpmsg_send ⟨exRing, exEmptyRing⟩ 65536 5 [7]).1 = PRU_RPMSG_SUCCESS ∧
    (pru_rpmsg_receive
      (peerTransport (pru_rpmsg_send ⟨exRing, exEmptyRing⟩ 65536 5 [7]).2)).1 =
      PRU_RPMSG_SUCCESS ∧
    (pru_rpmsg_receive
      (peerTransport (pru_rpmsg_send ⟨exRing, exEmptyRing⟩ 65536 5 [7]).2)).2.1 =
      some ⟨0, 5, [7], 1⟩ ∧
    (0 : Nat) ≠ 65536 := by
  refine ⟨by decide, by decide, by decide, by decide⟩

/-- C1 (amended): for every source and destination address below 2^16 and
payload fitting the acquired slot, pru_rpmsg_send of (src, dst, payload)
followed by the peer's receive of that slot yields exactly (src, dst,
payload) with the correct length, and the receive returns
PRU_RPMSG_SUCCESS.  (Addresses at or above 2^16 are narrowed modulo 2^16
by the receive side, see the counterexample.) -/
theorem send_receive_roundtrip (t : pru_rpmsg_transport) (src dst : Nat)
    (data : List Nat) (head : Nat) (rest : List Nat)
    (hav : t.virtqueue0.avail = head :: rest)
    (hh : head < t.virtqueue0.slots.length)
    (hcap : RPMSG_HDR_SIZE + data.length ≤ (slotAt t.virtqueue0 head).capacity)
    (hused : t.virtqueue0.used = [])
    (hsrc : src < 65536) (hdst : dst < 65536) (hlen : data.length < 65536) :
    (pru_rpmsg_send t src dst data).1 = PRU_RPMSG_SUCCESS ∧
    (pru_rpmsg_receive (peerTransport (pru_rpmsg_send t src dst data).2)).1 =
      PRU_RPMSG_SUCCESS ∧
    (pru_rpmsg_receive (peerTransport (pru_rpmsg_send t src dst data).2)).2.1 =
      some ⟨src, dst, data, data.length⟩ := by
  obtain ⟨⟨s0, a0, u0⟩, vq1⟩ := t
  dsimp only [slotAt] at hav hh hcap hused
  subst hav
  subst hused
  have hs1 : pru_rpmsg_send ⟨⟨s0, head :: rest, []⟩, vq1⟩ src dst data =
      (PRU_RPMSG_SUCCESS,
        ⟨⟨s0.set head ⟨(s0.getD head defaultSlot).capacity,
            serializeHdr ⟨src, dst, 0, data.length, 0⟩ ++ data⟩,
          rest, [(head, RPMSG_HDR_SIZE + data.length)]⟩, vq1⟩) := by
    simp [pru_rpmsg_send, vring_send_ok s0 [] head rest src dst data hh hcap]
  rw [hs1]
  simp only [peerTransport, peerView, List.map_cons, List.map_nil]
  have hh2 : head < (s0.set head ⟨(s0.getD head defaultSlot).capacity,
      serializeHdr ⟨src, dst, 0, data.length, 0⟩ ++ data⟩).length := by
    simpa using hh
  rw [pru_rpmsg_receive_ok _ head [] rfl hh2]
  simp only [slotAt]
  rw [getD_set_self s0 head _ defaultSlot hh]
  obtain ⟨p1, p2, p3, p4⟩ := hdr_parse src dst data.length 0 data
  refine ⟨trivial, trivial, ?_⟩
  simp only [p1, p2, p3, p4, Option.some.injEq, RecvOut.mk.injEq]
  refine ⟨by omega, by omega, ?_, by omega⟩
  rw [show data.length % 65536 = data.length from by omega, List.take_length]

theorem send_receive_roundtrip_witness :
    (pru_rpmsg_send ⟨exRing, exEmptyRing⟩ 7 5 [1, 2, 3]).1 = PRU_RPMSG_SUCCESS ∧
    (pru_rpmsg_receive
      (peerTransport (pru_rpmsg_send ⟨exRing, exEmptyRing⟩ 7 5 [1, 2, 3]).2)).1 =
      PRU_RPMSG_SUCCESS ∧
    (pru_rpmsg_receive
      (peerTransport (pru_rpmsg_send ⟨exRing, exEmptyRing⟩ 7 5 [1, 2, 3]).2)).2.1 =
      some ⟨7, 5, [1, 2, 3], 3⟩ :=
  send_receive_roundtrip ⟨exRing, exEmptyRing⟩ 7 5 [1, 2, 3] 0 [] rfl
    (by decide) (by decide) rfl (by decide) (by decide) (by decide)

/-- C7: with fitting name and description, pru_rpmsg_channel delegates to
pru_rpmsg_send with source = port and destination = the reserved
name-service address; the slot written carries the header followed by the
72-byte name-service payload, which parses back to exactly the name, the
description, the announced port and the create/destroy flag word, where
RPMSG_NS_CREATE encodes as 0 and RPMSG_NS_DESTROY as 1. -/
theorem channel_framing (t : pru_rpmsg_transport) (flags : pru_rpmsg_ns_flags)
    (name desc : List Nat) (port : Nat) (head : Nat) (rest : List Nat)
    (hav : t.virtqueue0.avail = head :: rest)
    (hh : head < t.virtqueue0.slots.length)
    (hcap : RPMSG_HDR_SIZE + 72 ≤ (slotAt t.virtqueue0 head).capacity)
    (hn : name.length < RPMSG_NAME_SIZE) (hd : desc.length < RPMSG_NAME_SIZE)
    (hnz : ∀ b ∈ name, b ≠ 0) (hdz : ∀ b ∈ desc, b ≠ 0) :
    pru_rpmsg_channel flags t name desc port =
      pru_rpmsg_send t port RPMSG_NS_ADDR (nsPayload name desc port flags) ∧
    (pru_rpmsg_channel flags t name desc port).1 = PRU_RPMSG_SUCCESS ∧
    (slotAt (pru_rpmsg_channel flags t name desc port).2.virtqueue0 head).data =
      serializeHdr ⟨port, RPMSG_NS_ADDR, 0, 72, 0⟩ ++
        nsPayload name desc port flags ∧
    nsParseName (nsPayload name desc port flags) = name ∧
    nsParseDesc (nsPayload name desc port flags) = desc ∧
    nsParsePort (nsPayload name desc port flags) = port % 4294967296 ∧
    nsParseFlags (nsPayload name desc port flags) = flags.toNat ∧
    pru_rpmsg_ns_flags.RPMSG_NS_CREATE.toNat = 0 ∧
    pru_rpmsg_ns_flags.RPMSG_NS_DESTROY.toNat = 1 := by
  have hlen72 := nsPayload_length name desc port flags (Nat.le_of_lt hn) (Nat.le_of_lt hd)
  have hdeleg : pru_rpmsg_channel flags t name desc port =
      pru_rpmsg_send t port RPMSG_NS_ADDR (nsPayload name desc port flags) := by
    unfold pru_rpmsg_channel
    rw [if_pos ⟨hn, hd⟩]
  refine ⟨hdeleg, ?_, ?_, nsParseName_nsPayload name desc port flags hn hnz,
    nsParseDesc_nsPayload name desc port flags (Nat.le_of_lt hn) hd hdz,
    nsParsePort_nsPayload name desc port flags (Nat.le_of_lt hn) (Nat.le_of_lt hd),
    nsParseFlags_nsPayload name desc port flags (Nat.le_of_lt hn) (Nat.le_of_lt hd),
    rfl, rfl⟩
  · rw [hdeleg]
    obtain ⟨⟨s0, a0, u0⟩, vq1⟩ := t
    dsimp only [slotAt] at hav hh hcap
    subst hav
    have hcap' : RPMSG_HDR_SIZE + (nsPayload name desc port flags).length ≤
        (s0.getD head defaultSlot).capacity := by rw [hlen72]; exact hcap
    simp [pru_rpmsg_send,
      vring_send_ok s0 u0 head rest port RPMSG_NS_ADDR
        (nsPayload name desc port flags) hh hcap']
  · rw [hdeleg]
    obtain ⟨⟨s0, a0, u0⟩, vq1⟩ := t
    dsimp only [slotAt] at hav hh hcap
    subst hav
    have hcap' : RPMSG_HDR_SIZE + (nsPayload name desc port flags).length ≤
        (s0.getD head defaultSlot).capacity := by rw [hlen72]; exact hcap
    simp only [pru_rpmsg_send,
      vring_send_ok s0 u0 head rest port RPMSG_NS_ADDR
        (nsPayload name desc port flags) hh hcap']
    dsimp only [slotAt]
    rw [getD_set_self s0 head _ defaultSlot hh, hlen72]

theorem channel_framing_witness :
    (pru_rpmsg_channel .RPMSG_NS_CREATE ⟨exRing, exEmptyRing⟩
      [99, 104, 97, 110] [100, 101, 115, 99] 42).1 = PRU_RPMSG_SUCCESS ∧
    nsParseName (nsPayload [99, 104, 97, 110] [100, 101, 115, 99] 42
      .RPMSG_NS_CREATE) = [99, 104, 97, 110] ∧
    nsParseDesc (nsPayload [99, 104, 97, 110] [100, 101, 115, 99] 42
      .RPMSG_NS_CREATE) = [100, 101, 115, 99] ∧
    nsParsePort (nsPayload [99, 104, 97, 110] [100, 101, 115, 99] 42
      .RPMSG_NS_CREATE) = 42 % 4294967296 ∧
    nsParseFlags (nsPayload [99, 104, 97, 110] [100, 101, 115, 99] 42
      .RPMSG_NS_CREATE) = pru_rpmsg_ns_flags.RPMSG_NS_CREATE.toNat := by
  have h := channel_framing ⟨exRing, exEmptyRing⟩ .RPMSG_NS_CREATE
    [99, 104, 97, 110] [100, 101, 115, 99] 42 0 [] rfl (by decide) (by decide)
    (by decide) (by decide) (by decide) (by decide)
  exact ⟨h.2.1, h.2.2.2.1, h.2.2.2.2.1, h.2.2.2.2.2.1, h.2.2.2.2.2.2.1⟩

/-- C10 counterexample: pru_rpmsg_channel can return
PRU_RPMSG_BUF_TOO_SMALL even on a transport whose every slot has the
reference capacity RPMSG_BUF_SIZE = 512: an oversized (40-byte) name is
rejected with exactly that code before any ring interaction. -/
theorem channel_buf_too_small_counterexample :
    (∀ s ∈ (⟨exRing, exEmptyRing⟩ : pru_rpmsg_transport).virtqueue0.slots,
      s.capacity = RPMSG_BUF_SIZE) ∧
    (pru_rpmsg_channel .RPMSG_NS_DESTROY ⟨exRing, exEmptyRing⟩
      (List.replicate 40 97) [100] 7).1 = PRU_RPMSG_BUF_TOO_SMALL := by
  refine ⟨by decide, by decide⟩

/-- C10 (amended): on a transport whose ring slots all have the reference
capacity RPMSG_BUF_SIZE = 512 and for fitting name and description,
pru_rpmsg_channel never returns PRU_RPMSG_BUF_TOO_SMALL: its name-service
payload has the fixed size 72, header size plus payload is 88 and always
fits a slot, so the send-side too-small branch is unreachable.  (With an
oversized name or description the length-rejection path does return
PRU_RPMSG_BUF_TOO_SMALL, see the counterexample.) -/
theorem channel_never_buf_too_small (t : pru_rpmsg_transport)
    (flags : pru_rpmsg_ns_flags) (name desc : List Nat) (port : Nat)
    (hcap : ∀ s ∈ t.virtqueue0.slots, s.capacity = RPMSG_BUF_SIZE)
    (hn : name.length < RPMSG_NAME_SIZE) (hd : desc.length < RPMSG_NAME_SIZE) :
    (pru_rpmsg_channel flags t name desc port).1 ≠ PRU_RPMSG_BUF_TOO_SMALL := by
  have hlen72 := nsPayload_length name desc port flags (Nat.le_of_lt hn) (Nat.le_of_lt hd)
  unfold pru_rpmsg_channel
  rw [if_pos ⟨hn, hd⟩]
  obtain ⟨⟨s0, a0, u0⟩, vq1⟩ := t
  dsimp only at hcap
  cases a0 with
  | nil =>
    simp only [pru_rpmsg_send, vring_send_none]
    decide
  | cons head rest =>
    by_cases hh : head < s0.length
    · have hmem : s0.getD head defaultSlot ∈ s0 := by
        rw [List.getD_eq_getElem _ _ hh]
        exact List.getElem_mem hh
      have hc : RPMSG_HDR_SIZE + (nsPayload name desc port flags).length ≤
          (s0.getD head defaultSlot).capacity := by
        rw [hcap _ hmem, hlen72]
        decide
      simp only [pru_rpmsg_send,
        vring_send_ok s0 u0 head rest port RPMSG_NS_ADDR
          (nsPayload name desc port flags) hh hc]
      decide
    · simp only [pru_rpmsg_send,
        vring_send_invalid s0 u0 head rest port RPMSG_NS_ADDR
          (nsPayload name desc port flags) hh]
      decide

theorem channel_never_buf_too_small_witness :
    (pru_rpmsg_channel .RPMSG_NS_CREATE ⟨exRing, exEmptyRing⟩ [99] [100] 1).1 ≠
      PRU_RPMSG_BUF_TOO_SMALL :=
  channel_never_buf_too_small ⟨exRing, exEmptyRing⟩ .RPMSG_NS_CREATE [99] [100] 1
    (by decide) (by decide) (by decide)
